import Mathlib

/-
Verification of the tri-state thread-synchronization event implemented in
util/event.c (qemu_event_init / qemu_event_destroy / qemu_event_set /
qemu_event_reset / qemu_event_wait).

The event state word `value` is a C `unsigned` (32 bits) holding one of
  EV_SET  = 0
  EV_FREE = 1
  EV_BUSY = -1   (i.e. 4294967295 as unsigned)

Two backends exist behind the same API, selected by the HAVE_FUTEX
preprocessor symbol:
  - the fast (futex) backend, operating on the atomic word directly and
    blocking with qemu_futex_wait / waking with qemu_futex_wake_all;
  - the fallback backend, using a pthread mutex + condition variable.

We model:
  - each operation as a sequential (interference-free) function on an
    explicit event record, returning `none` when the operation's leading
    assert(ev->initialized) fires;
  - the individual atomic write instructions of the operations as
    functions on the state word, to reason about which state transitions
    the code can ever perform;
  - the futex-backend set()/wait() pair as a small-step interleaved
    two-thread transition system, to prove the no-missed-wakeup property.
Memory barriers (smp_mb, smp_mb__after_rmw, load-acquire) order accesses
between threads; in the sequentially consistent interleaving model they
are no-ops and are therefore not represented as steps.
-/

/-- EV_SET from util/event.c: the event is signaled. -/
def EV_SET : Nat := 0

/-- EV_FREE from util/event.c: the event is not signaled and has no waiters. -/
def EV_FREE : Nat := 1

/-- EV_BUSY from util/event.c: `-1` stored in a 32-bit C `unsigned`,
    i.e. `2^32 - 1`. The event is not signaled and has waiters. -/
def EV_BUSY : Nat := 4294967295

/-- Model of `struct QemuEvent`. Its fields are taken from their uses in
util/event.c: the atomically accessed state word `ev->value`, the lifecycle
flag `ev->initialized`, and (fallback backend only) `ev->lock` and
`ev->cond`. The struct declaration itself lives in a header outside the
sources; the pthread mutex and condition variable are modelled from the
spec's data model ("an owned lock + condition variable pair") as booleans
recording whether they are currently constructed. -/
structure QemuEvent where
  lockInitDone : Bool
  condInitDone : Bool
  value : Nat
  initialized : Bool

/-- Model of qemu_event_init. `hasFutex` selects the backend (HAVE_FUTEX):
when false, pthread_mutex_init and pthread_cond_init construct the lock and
condition variable. Then `ev->value = (init ? EV_SET : EV_FREE)` and
`ev->initialized = true`. Note there is no assert: init is total. -/
def qemu_event_init (hasFutex : Bool) (ev : QemuEvent) (init : Bool) : QemuEvent :=
  let ev1 := if hasFutex then ev else
    { ev with lockInitDone := true, condInitDone := true }
  { ev1 with value := if init then EV_SET else EV_FREE, initialized := true }

/-- Model of qemu_event_destroy: asserts `ev->initialized` (modelled as
returning `none`), clears the flag, and (fallback backend) destroys the
lock and condition variable. The state word is not touched. -/
def qemu_event_destroy (hasFutex : Bool) (ev : QemuEvent) : Option QemuEvent :=
  if ev.initialized then
    let ev1 := { ev with initialized := false }
    some (if hasFutex then ev1 else
      { ev1 with lockInitDone := false, condInitDone := false })
  else
    none

/-- Atomic write performed by the futex-backend qemu_event_set:
`qatomic_xchg(&ev->value, EV_SET)` stores EV_SET unconditionally
(the old value is read out separately by the caller). -/
def set_xchg_write (_v : Nat) : Nat := EV_SET

/-- Atomic write performed by the fallback-backend qemu_event_set:
`qatomic_set(&ev->value, EV_SET)` under the lock. -/
def set_store_write (_v : Nat) : Nat := EV_SET

/-- Atomic write performed by qemu_event_reset:
`qatomic_or(&ev->value, EV_FREE)`. -/
def reset_or_write (v : Nat) : Nat := v ||| EV_FREE

/-- Atomic write performed by the futex-backend qemu_event_wait:
`qatomic_cmpxchg(&ev->value, EV_FREE, EV_BUSY)` stores EV_BUSY exactly
when the current value is EV_FREE, and otherwise leaves the word alone. -/
def wait_cas_write (v : Nat) : Nat := if v = EV_FREE then EV_BUSY else v

/-- Model of the futex-backend qemu_event_set, sequential (no concurrent
interference, so the value read by `qatomic_read` is still the value seen
by the xchg). Returns the updated event together with the number of
qemu_futex_wake_all calls issued (0 or 1). `none` models the assert. -/
def qemu_event_set_futex (ev : QemuEvent) : Option (QemuEvent × Nat) :=
  if ev.initialized then
    if ev.value ≠ EV_SET then
      some ({ ev with value := set_xchg_write ev.value },
            if ev.value = EV_BUSY then 1 else 0)
    else
      some (ev, 0)
  else
    none

/-- Model of the fallback-backend qemu_event_set: takes the lock, stores
EV_SET, and unconditionally broadcasts the condition variable (counted as
one wake-all operation), regardless of the previous state. -/
def qemu_event_set_fallback (ev : QemuEvent) : Option (QemuEvent × Nat) :=
  if ev.initialized then
    some ({ ev with value := set_store_write ev.value }, 1)
  else
    none

/-- Model of qemu_event_reset (identical in both backends): asserts
initialized, then `qatomic_or(&ev->value, EV_FREE)`. -/
def qemu_event_reset (ev : QemuEvent) : Option QemuEvent :=
  if ev.initialized then
    some { ev with value := reset_or_write ev.value }
  else
    none

/-- Outcome of a wait() call in the sequential model: it either returns to
the caller, blocks in the kernel (and stays blocked, since there is no
concurrent setter in the sequential model), or spins forever in the retry
loop without ever blocking (only possible from a state word outside
the three legal values). -/
inductive WaitOutcome where
  | returned (ev : QemuEvent)
  | blocked (ev : QemuEvent)
  | spins (ev : QemuEvent)

/-- Event record carried by a WaitOutcome. -/
def WaitOutcome.ev : WaitOutcome → QemuEvent
  | .returned e => e
  | .blocked e => e
  | .spins e => e

/-- Model of the futex-backend qemu_event_wait run without interference.
Following the loop in the source: load the value; if EV_SET, return; if
EV_FREE, the cmpxchg succeeds (no interference), making the value EV_BUSY,
and the subsequent qemu_futex_wait(ev, EV_BUSY) blocks; if EV_BUSY,
qemu_futex_wait blocks immediately; any other word makes qemu_futex_wait
return at once and the loop spin forever. -/
def qemu_event_wait_futex_seq (ev : QemuEvent) : Option WaitOutcome :=
  if ev.initialized then
    if ev.value = EV_SET then
      some (.returned ev)
    else if ev.value = EV_FREE then
      some (.blocked { ev with value := wait_cas_write ev.value })
    else if ev.value = EV_BUSY then
      some (.blocked ev)
    else
      some (.spins ev)
  else
    none

/-- Model of the fallback-backend qemu_event_wait: lock the mutex, and
`if` (not `while`) the value is not EV_SET, pthread_cond_wait once; then
unlock and return. With no concurrent setter, the condition-wait returns
exactly when the OS delivers a spurious wakeup, which the `spurious`
oracle decides. Because the recheck is an `if` and not a loop, a spurious
wakeup makes wait() return with the state word untouched and not EV_SET. -/
def qemu_event_wait_fallback (ev : QemuEvent) (spurious : Bool) : Option WaitOutcome :=
  if ev.initialized then
    if ev.value = EV_SET then
      some (.returned ev)
    else if spurious then
      some (.returned ev)
    else
      some (.blocked ev)
  else
    none

/-- Value of the state word is one of the three legal states. -/
abbrev validValue (v : Nat) : Prop := v = EV_SET ∨ v = EV_FREE ∨ v = EV_BUSY

/-- The four legal transitions of the state machine (plus staying put,
which covers writes that store the value already present). -/
abbrev legalTransition (a b : Nat) : Prop :=
  a = b ∨
  (a = EV_FREE ∧ b = EV_SET) ∨ (a = EV_BUSY ∧ b = EV_SET) ∨
  (a = EV_SET ∧ b = EV_FREE) ∨ (a = EV_FREE ∧ b = EV_BUSY)

/-- A single atomic write from `v` to `w` is acceptable: it is one of the
four legal transitions (or a same-value no-op write), stays inside the
three legal states, and in particular is neither a direct SET-to-BUSY nor
a BUSY-to-FREE transition. -/
abbrev writeOk (v w : Nat) : Prop :=
  legalTransition v w ∧ validValue w ∧
  (v = EV_SET → w ≠ EV_BUSY) ∧ (v = EV_BUSY → w ≠ EV_FREE)

/-
Interleaved two-thread model of the futex backend: one thread executes the
loop of qemu_event_wait, another executes qemu_event_set, on a shared
state word. Each program counter value stands between two shared-memory
accesses; each step performs exactly one atomic access (or the futex
wake). Pure control flow between accesses is folded into the access step.
-/

/-- Program counter of the waiting thread inside the qemu_event_wait loop
(futex backend).
  atLoad:   about to execute `qatomic_load_acquire(&ev->value)`; the
            branches on the loaded value are folded into this step.
  atCas:    the load returned EV_FREE; about to execute
            `qatomic_cmpxchg(&ev->value, EV_FREE, EV_BUSY)`.
  atFutex:  about to execute `qemu_futex_wait(ev, EV_BUSY)`, which
            atomically compares the word with EV_BUSY and sleeps only on
            equality, otherwise returns to the top of the loop.
  blocked:  asleep inside qemu_futex_wait; only a wake releases it.
  returned: qemu_event_wait has returned to its caller. -/
inductive WaiterPc where
  | atLoad
  | atCas
  | atFutex
  | blocked
  | returned
deriving DecidableEq

/-- Program counter of the setting thread inside qemu_event_set (futex
backend).
  atRead:  about to execute `qatomic_read(&ev->value)` (the smp_mb before
           it orders memory and is a no-op in this interleaving model).
  atXchg:  the read returned a value other than EV_SET; about to execute
           `qatomic_xchg(&ev->value, EV_SET)`.
  atWake:  the xchg returned EV_BUSY; about to call qemu_futex_wake_all.
  done:    qemu_event_set has returned. -/
inductive SetterPc where
  | atRead
  | atXchg
  | atWake
  | done
deriving DecidableEq

/-- Global state of the two-thread system: the shared state word and the
two program counters. -/
structure Sys where
  value : Nat
  waiter : WaiterPc
  setter : SetterPc

/-- One atomic step of the waiting thread (deterministic given the shared
word). From `blocked` or `returned` the thread cannot step by itself;
those cases are mapped to the identity and excluded in the Step relation. -/
def waiterStepF (s : Sys) : Sys :=
  match s.waiter with
  | .atLoad =>
      { s with waiter :=
          if s.value = EV_SET then .returned
          else if s.value = EV_FREE then .atCas
          else .atFutex }
  | .atCas =>
      if s.value = EV_FREE then
        { s with value := wait_cas_write s.value, waiter := .atFutex }
      else if s.value = EV_SET then
        { s with waiter := .returned }
      else
        { s with waiter := .atFutex }
  | .atFutex =>
      { s with waiter := if s.value = EV_BUSY then .blocked else .atLoad }
  | .blocked => s
  | .returned => s

/-- One-bit OR fixes every odd number: the kernel-cheap structural proof
of the reset no-op on EV_FREE-like and EV_BUSY-like words, via bitwise
extensionality (bit 0 of an odd number is already set, and the constant 1
has no other bit). -/
theorem lor_one_of_odd (v : Nat) (h : v % 2 = 1) : v ||| 1 = v := by
  apply Nat.eq_of_testBit_eq
  intro i
  rw [Nat.testBit_lor]
  cases i with
  | zero => simp [Nat.testBit_zero, h]
  | succ j => simp [Nat.testBit_succ, Nat.zero_testBit]

/-- Reset's OR on EV_SET yields EV_FREE. -/
theorem reset_or_write_set : reset_or_write EV_SET = EV_FREE := Nat.zero_or 1

/-- Reset's OR on EV_FREE is a no-op. -/
theorem reset_or_write_free : reset_or_write EV_FREE = EV_FREE := Nat.or_self 1

/-- Reset's OR on EV_BUSY is a no-op (EV_BUSY is odd, so its low bit is
already set). -/
theorem reset_or_write_busy : reset_or_write EV_BUSY = EV_BUSY :=
  lor_one_of_odd EV_BUSY (by decide)

/-- C2: the claim that both backends return from wait() only after
observing EV_SET fails on the fallback backend as written: the recheck
around pthread_cond_wait is an `if`, not a loop, so a single spurious
wakeup on an event whose word is EV_FREE makes qemu_event_wait unlock and
return with the state word still EV_FREE, never having observed EV_SET. -/
theorem fallback_wait_spurious_returns_unset :
    qemu_event_wait_fallback ⟨true, true, EV_FREE, true⟩ true =
      some (.returned ⟨true, true, EV_FREE, true⟩) ∧ EV_FREE ≠ EV_SET :=
  ⟨rfl, by decide⟩

/-- C3 counterexample: in the fallback backend, set() on an event whose
state is already EV_SET still performs one wake-all operation
(pthread_cond_broadcast is unconditional), contradicting the claim that
in both backends set() with state already SET issues no wake. -/
theorem set_wake_fallback_on_set_counterexample :
    qemu_event_set_fallback ⟨true, true, EV_SET, true⟩ =
      some (⟨true, true, EV_SET, true⟩, 1) ∧ (1 : Nat) ≠ 0 :=
  ⟨rfl, by decide⟩

/-- C3 amended: in the futex backend, set() on an initialized event
stores EV_SET and invokes the wake-all operation if and only if the value
it replaced was EV_BUSY (no wake when the state was already EV_SET or was
EV_FREE); in the fallback backend, set() stores EV_SET and always issues
exactly one condition-variable broadcast, even when the state was already
EV_SET. -/
theorem set_wake_iff_busy (ev : QemuEvent) (h : ev.initialized = true) :
    qemu_event_set_futex ev =
      some ({ ev with value := EV_SET }, if ev.value = EV_BUSY then 1 else 0) ∧
    qemu_event_set_fallback ev = some ({ ev with value := EV_SET }, 1) := by
  obtain ⟨l, c, v, i⟩ := ev
  simp only at h
  subst h
  constructor
  · by_cases hv : v = EV_SET
    · subst hv
      simp [qemu_event_set_futex, EV_SET, EV_BUSY]
    · simp [qemu_event_set_futex, set_xchg_write, hv]
  · simp [qemu_event_set_fallback, set_store_write]

/-- Witness for C3's amended theorem at a concrete busy event. -/
theorem set_wake_iff_busy_witness :
    qemu_event_set_futex ⟨false, false, EV_BUSY, true⟩ =
      some (⟨false, false, EV_SET, true⟩,
        if (⟨false, false, EV_BUSY, true⟩ : QemuEvent).value = EV_BUSY then 1 else 0) ∧
    qemu_event_set_fallback ⟨false, false, EV_BUSY, true⟩ =
      some (⟨false, false, EV_SET, true⟩, 1) :=
  set_wake_iff_busy ⟨false, false, EV_BUSY, true⟩ rfl

/-- C4: with EV_SET = 0, EV_FREE = 1, EV_BUSY = 2^32 - 1, the atomic OR
with EV_FREE performed by qemu_event_reset maps SET to FREE, leaves FREE
at FREE and BUSY at BUSY; it is idempotent on every reachable state value
(both at the level of the word and of the whole operation), and it never
performs a BUSY-to-FREE transition. -/
theorem reset_or_algebra (ev : QemuEvent) (h : ev.initialized = true)
    (hv : validValue ev.value) :
    reset_or_write EV_SET = EV_FREE ∧ reset_or_write EV_FREE = EV_FREE ∧
    reset_or_write EV_BUSY = EV_BUSY ∧
    reset_or_write (reset_or_write ev.value) = reset_or_write ev.value ∧
    (reset_or_write ev.value = EV_FREE → ev.value ≠ EV_BUSY) ∧
    qemu_event_reset ev = some { ev with value := reset_or_write ev.value } ∧
    (qemu_event_reset ev).bind qemu_event_reset = qemu_event_reset ev := by
  obtain ⟨l, c, v, i⟩ := ev
  simp only at h hv
  subst h
  refine ⟨reset_or_write_set, reset_or_write_free, reset_or_write_busy, ?_, ?_, ?_, ?_⟩ <;>
    rcases hv with hv | hv | hv <;> subst hv <;>
      simp [qemu_event_reset, reset_or_write_set, reset_or_write_free, reset_or_write_busy] <;>
        decide

/-- Witness for C4 at a concrete busy event. -/
theorem reset_or_algebra_witness :
    reset_or_write EV_SET = EV_FREE ∧ reset_or_write EV_FREE = EV_FREE ∧
    reset_or_write EV_BUSY = EV_BUSY ∧
    reset_or_write (reset_or_write (⟨false, false, EV_BUSY, true⟩ : QemuEvent).value) =
      reset_or_write (⟨false, false, EV_BUSY, true⟩ : QemuEvent).value ∧
    (reset_or_write (⟨false, false, EV_BUSY, true⟩ : QemuEvent).value = EV_FREE →
      (⟨false, false, EV_BUSY, true⟩ : QemuEvent).value ≠ EV_BUSY) ∧
    qemu_event_reset ⟨false, false, EV_BUSY, true⟩ =
      some { (⟨false, false, EV_BUSY, true⟩ : QemuEvent) with
               value := reset_or_write (⟨false, false, EV_BUSY, true⟩ : QemuEvent).value } ∧
    (qemu_event_reset ⟨false, false, EV_BUSY, true⟩).bind qemu_event_reset =
      qemu_event_reset ⟨false, false, EV_BUSY, true⟩ :=
  reset_or_algebra ⟨false, false, EV_BUSY, true⟩ rfl (Or.inr (Or.inr rfl))

/-- C5: every atomic write instruction of set(), reset() and wait() (the
futex xchg, the fallback store, the reset OR, the wait cmpxchg), applied
to any of the three legal state values, performs one of the four legal
transitions (or rewrites the same value), stays inside the three legal
states, and never performs a direct SET-to-BUSY or BUSY-to-FREE
transition. -/
theorem event_write_transitions (v : Nat) (hv : validValue v) :
    writeOk v (set_xchg_write v) ∧ writeOk v (set_store_write v) ∧
    writeOk v (reset_or_write v) ∧ writeOk v (wait_cas_write v) := by
  rcases hv with hv | hv | hv <;> subst hv <;>
    refine ⟨by decide, by decide, ?_, by decide⟩ <;>
      simp only [reset_or_write_set, reset_or_write_free, reset_or_write_busy] <;> decide

/-- Witness for C5 at the EV_FREE state value. -/
theorem event_write_transitions_witness :
    writeOk EV_FREE (set_xchg_write EV_FREE) ∧ writeOk EV_FREE (set_store_write EV_FREE) ∧
    writeOk EV_FREE (reset_or_write EV_FREE) ∧ writeOk EV_FREE (wait_cas_write EV_FREE) :=
  event_write_transitions EV_FREE (Or.inr (Or.inl rfl))

/-- C6: wait() on an initialized event whose state is EV_SET, with no
concurrent modification, returns immediately without blocking and leaves
the state EV_SET (both backends); in the interleaved model, a waiter at
its cmpxchg finding the word already EV_SET returns in that very step;
and qemu_event_init with init = true followed by wait() returns without
blocking (both backends). -/
theorem wait_immediate_when_set (hf : Bool) (ev ev0 : QemuEvent) (sp : Bool)
    (h : ev.initialized = true) (hs : ev.value = EV_SET) :
    qemu_event_wait_futex_seq ev = some (.returned ev) ∧
    qemu_event_wait_fallback ev sp = some (.returned ev) ∧
    (∀ s : Sys, s.waiter = .atCas → s.value = EV_SET →
      (waiterStepF s).waiter = .returned) ∧
    qemu_event_wait_futex_seq (qemu_event_init hf ev0 true) =
      some (.returned (qemu_event_init hf ev0 true)) ∧
    qemu_event_wait_fallback (qemu_event_init hf ev0 true) sp =
      some (.returned (qemu_event_init hf ev0 true)) := by
  refine ⟨?_, ?_, ?_, ?_, ?_⟩
  · simp [qemu_event_wait_futex_seq, h, hs]
  · simp [qemu_event_wait_fallback, h, hs]
  · intro s h1 h2
    obtain ⟨v, w, p⟩ := s
    simp only at h1 h2
    subst h1; subst h2
    simp [waiterStepF, EV_SET, EV_FREE]
  · cases hf <;> simp [qemu_event_init, qemu_event_wait_futex_seq]
  · cases hf <;> simp [qemu_event_init, qemu_event_wait_fallback]

/-- Witness for C6 at a concrete pre-signaled event. -/
theorem wait_immediate_when_set_witness :
    qemu_event_wait_futex_seq ⟨true, true, EV_SET, true⟩ =
      some (.returned ⟨true, true, EV_SET, true⟩) ∧
    qemu_event_wait_fallback ⟨true, true, EV_SET, true⟩ true =
      some (.returned ⟨true, true, EV_SET, true⟩) ∧
    (∀ s : Sys, s.waiter = .atCas → s.value = EV_SET →
      (waiterStepF s).waiter = .returned) ∧
    qemu_event_wait_futex_seq (qemu_event_init false ⟨false, false, 0, false⟩ true) =
      some (.returned (qemu_event_init false ⟨false, false, 0, false⟩ true)) ∧
    qemu_event_wait_fallback (qemu_event_init false ⟨false, false, 0, false⟩ true) true =
      some (.returned (qemu_event_init false ⟨false, false, 0, false⟩ true)) :=
  wait_immediate_when_set false ⟨true, true, EV_SET, true⟩ ⟨false, false, 0, false⟩ true
    rfl rfl

/-- C7: qemu_event_init establishes its postcondition for every initial
flag: the state word is EV_SET when init is true and EV_FREE otherwise,
the initialized flag is set, and in the fallback backend the lock and the
condition variable are constructed. -/
theorem qemu_event_init_post (hf : Bool) (ev : QemuEvent) (b : Bool) :
    (qemu_event_init hf ev b).value = (if b then EV_SET else EV_FREE) ∧
    (qemu_event_init hf ev b).initialized = true ∧
    (hf = false → (qemu_event_init hf ev b).lockInitDone = true ∧
      (qemu_event_init hf ev b).condInitDone = true) := by
  cases hf <;> cases b <;> simp [qemu_event_init]

/-- Witness for C7 on the fallback backend with init = true. -/
theorem qemu_event_init_post_witness :
    (qemu_event_init false ⟨false, false, 0, false⟩ true).value = (if true then EV_SET else EV_FREE) ∧
    (qemu_event_init false ⟨false, false, 0, false⟩ true).initialized = true ∧
    (false = false → (qemu_event_init false ⟨false, false, 0, false⟩ true).lockInitDone = true ∧
      (qemu_event_init false ⟨false, false, 0, false⟩ true).condInitDone = true) :=
  qemu_event_init_post false ⟨false, false, 0, false⟩ true

/-- C8: destroy(), set(), reset() and wait() all assert the initialized
flag first: on a non-initialized event every one of them fails the
assertion (modelled as `none`) instead of returning, and on an
initialized event none of them reaches the assertion-failure branch
(the result is always `some`). -/
theorem ops_assert_init_flag (hf : Bool) (ev : QemuEvent) :
    (ev.initialized = false →
      qemu_event_destroy hf ev = none ∧ qemu_event_set_futex ev = none ∧
      qemu_event_set_fallback ev = none ∧ qemu_event_reset ev = none ∧
      qemu_event_wait_futex_seq ev = none ∧
      ∀ sp, qemu_event_wait_fallback ev sp = none) ∧
    (ev.initialized = true →
      (qemu_event_destroy hf ev).isSome = true ∧
      (qemu_event_set_futex ev).isSome = true ∧
      (qemu_event_set_fallback ev).isSome = true ∧
      (qemu_event_reset ev).isSome = true ∧
      (qemu_event_wait_futex_seq ev).isSome = true ∧
      ∀ sp, (qemu_event_wait_fallback ev sp).isSome = true) := by
  obtain ⟨l, c, v, i⟩ := ev
  cases i <;>
    simp [qemu_event_destroy, qemu_event_set_futex, qemu_event_set_fallback,
      qemu_event_reset, qemu_event_wait_futex_seq, qemu_event_wait_fallback] <;>
    split_ifs <;> simp

/-- Witness for C8 on a concrete never-initialized event and a concrete
initialized event, fallback backend selected. -/
theorem ops_assert_init_flag_witness :
    ((⟨false, false, EV_FREE, false⟩ : QemuEvent).initialized = false →
      qemu_event_destroy false ⟨false, false, EV_FREE, false⟩ = none ∧
      qemu_event_set_futex ⟨false, false, EV_FREE, false⟩ = none ∧
      qemu_event_set_fallback ⟨false, false, EV_FREE, false⟩ = none ∧
      qemu_event_reset ⟨false, false, EV_FREE, false⟩ = none ∧
      qemu_event_wait_futex_seq ⟨false, false, EV_FREE, false⟩ = none ∧
      ∀ sp, qemu_event_wait_fallback ⟨false, false, EV_FREE, false⟩ sp = none) ∧
    ((⟨false, false, EV_FREE, false⟩ : QemuEvent).initialized = true →
      (qemu_event_destroy false ⟨false, false, EV_FREE, false⟩).isSome = true ∧
      (qemu_event_set_futex ⟨false, false, EV_FREE, false⟩).isSome = true ∧
      (qemu_event_set_fallback ⟨false, false, EV_FREE, false⟩).isSome = true ∧
      (qemu_event_reset ⟨false, false, EV_FREE, false⟩).isSome = true ∧
      (qemu_event_wait_futex_seq ⟨false, false, EV_FREE, false⟩).isSome = true ∧
      ∀ sp, (qemu_event_wait_fallback ⟨false, false, EV_FREE, false⟩ sp).isSome = true) :=
  ops_assert_init_flag false ⟨false, false, EV_FREE, false⟩

/-- C9: qemu_event_init performs no check of the initialized flag: called
on an already-initialized event it does not assert; it produces exactly
the same result as on a torn-down event, silently overwriting the state
word according to the init flag (and, fallback backend, re-running the
lock and condition-variable construction). -/
theorem qemu_event_init_no_lifecycle_check (hf : Bool) (ev : QemuEvent) (b : Bool)
    (h : ev.initialized = true) :
    qemu_event_init hf ev b = qemu_event_init hf { ev with initialized := false } b ∧
    (qemu_event_init hf ev b).value = (if b then EV_SET else EV_FREE) ∧
    (qemu_event_init hf ev b).initialized = true ∧
    (hf = false → (qemu_event_init hf ev b).lockInitDone = true ∧
      (qemu_event_init hf ev b).condInitDone = true) := by
  cases hf <;> cases b <;> simp [qemu_event_init]

/-- Witness for C9 on a concrete already-initialized event. -/
theorem qemu_event_init_no_lifecycle_check_witness :
    qemu_event_init false ⟨true, true, EV_SET, true⟩ false =
      qemu_event_init false { (⟨true, true, EV_SET, true⟩ : QemuEvent) with
        initialized := false } false ∧
    (qemu_event_init false ⟨true, true, EV_SET, true⟩ false).value =
      (if false then EV_SET else EV_FREE) ∧
    (qemu_event_init false ⟨true, true, EV_SET, true⟩ false).initialized = true ∧
    (false = false → (qemu_event_init false ⟨true, true, EV_SET, true⟩ false).lockInitDone = true ∧
      (qemu_event_init false ⟨true, true, EV_SET, true⟩ false).condInitDone = true) :=
  qemu_event_init_no_lifecycle_check false ⟨true, true, EV_SET, true⟩ false rfl

/-- C10: the initialized flag is modified only by qemu_event_init (which
sets it) and qemu_event_destroy (which clears it): set(), reset() and
wait() return an event whose initialized flag equals the input's, in both
backends, and destroy() leaves the state word unchanged. -/
theorem lifecycle_frame (hf : Bool) (ev : QemuEvent) (b sp : Bool) :
    (∀ ev', qemu_event_destroy hf ev = some ev' →
      ev'.value = ev.value ∧ ev'.initialized = false) ∧
    (∀ ev' n, qemu_event_set_futex ev = some (ev', n) →
      ev'.initialized = ev.initialized) ∧
    (∀ ev' n, qemu_event_set_fallback ev = some (ev', n) →
      ev'.initialized = ev.initialized) ∧
    (∀ ev', qemu_event_reset ev = some ev' → ev'.initialized = ev.initialized) ∧
    (∀ o, qemu_event_wait_futex_seq ev = some o → o.ev.initialized = ev.initialized) ∧
    (∀ o, qemu_event_wait_fallback ev sp = some o → o.ev.initialized = ev.initialized) ∧
    (qemu_event_init hf ev b).initialized = true := by
  obtain ⟨l, c, v, i⟩ := ev
  cases i <;> cases hf <;>
    simp [qemu_event_destroy, qemu_event_set_futex, qemu_event_set_fallback,
      qemu_event_reset, qemu_event_wait_futex_seq, qemu_event_wait_fallback,
      qemu_event_init] <;>
    split_ifs <;> simp_all [WaitOutcome.ev]

/-- Witness for C10 on a concrete initialized event, futex backend. -/
theorem lifecycle_frame_witness :
    (∀ ev', qemu_event_destroy true ⟨false, false, EV_SET, true⟩ = some ev' →
      ev'.value = (⟨false, false, EV_SET, true⟩ : QemuEvent).value ∧ ev'.initialized = false) ∧
    (∀ ev' n, qemu_event_set_futex ⟨false, false, EV_SET, true⟩ = some (ev', n) →
      ev'.initialized = (⟨false, false, EV_SET, true⟩ : QemuEvent).initialized) ∧
    (∀ ev' n, qemu_event_set_fallback ⟨false, false, EV_SET, true⟩ = some (ev', n) →
      ev'.initialized = (⟨false, false, EV_SET, true⟩ : QemuEvent).initialized) ∧
    (∀ ev', qemu_event_reset ⟨false, false, EV_SET, true⟩ = some ev' →
      ev'.initialized = (⟨false, false, EV_SET, true⟩ : QemuEvent).initialized) ∧
    (∀ o, qemu_event_wait_futex_seq ⟨false, false, EV_SET, true⟩ = some o →
      o.ev.initialized = (⟨false, false, EV_SET, true⟩ : QemuEvent).initialized) ∧
    (∀ o, qemu_event_wait_fallback ⟨false, false, EV_SET, true⟩ false = some o →
      o.ev.initialized = (⟨false, false, EV_SET, true⟩ : QemuEvent).initialized) ∧
    (qemu_event_init true ⟨false, false, EV_SET, true⟩ false).initialized = true :=
  lifecycle_frame true ⟨false, false, EV_SET, true⟩ false false
